import Mathlib

/-!
Verification development for the tool-execution orchestration pipeline:
a shallow embedding of the risk policy engine (`api/policy/engine.py`),
the path guards (`api/routes/tool_runs.py`, `worker/jobs_v2.py`), the
approval endpoints (`api/approvals/router.py`), the worker job runner
(`worker/jobs_v2.py`, `worker/policy_enforce.py`) and the plan
orchestrator's aggregate status (`agent/executor.py`), together with
theorems settling the specified behaviors.
-/

namespace Siyiji

/-- Argument maps are modelled as association lists from argument name to a
string rendering of the value; the claims under study never inspect the
values beyond passing them to the (oracle-modelled) JSON-schema validator. -/
abbrev Args := List (String × String)

namespace Policy

/-- Risk level enumeration, `RiskLevel` in `api/policy/engine.py`. -/
inductive RiskLevel
  | read
  | exec_low
  | exec_high
  | write
deriving DecidableEq, Repr

/-- String value of a risk level (`RiskLevel.value` on the Python enum). -/
def RiskLevel.value : RiskLevel → String
  | .read => "read"
  | .exec_low => "exec_low"
  | .exec_high => "exec_high"
  | .write => "write"

/-- The enum constructor `RiskLevel(s)`: `none` models the `ValueError`
raised on an unknown string. -/
def riskLevelOfString : String → Option RiskLevel
  | "read" => some .read
  | "exec_low" => some .exec_low
  | "exec_high" => some .exec_high
  | "write" => some .write
  | _ => none

/-- The tool dictionary fields read by `decide_execute`
(`ToolDict` in `api/policy/engine.py`); `none` models an absent key, so
`tool.get(k, d)` is `(field.getD d)`. -/
structure ToolDict where
  is_enabled : Option Int
  risk_level : Option String
  args_schema_json : Option String
deriving DecidableEq, Repr

/-- Policy decision result (`Decision` dataclass). -/
structure Decision where
  allowed : Bool
  requires_approval : Bool
  reason : String
deriving DecidableEq, Repr

/-- Risk levels that require approval (`APPROVAL_REQUIRED_RISKS`). -/
def APPROVAL_REQUIRED_RISKS : List RiskLevel := [.exec_high, .write]

/-- Outcome of a call to `jsonschema.validate` inside `_validate_schema`:
it returns normally, raises a `ValidationError`, or raises some other
exception (the final `except Exception` branch). -/
inductive JsOutcome
  | passed
  | validationError (msg : String)
  | otherError (msg : String)
deriving DecidableEq, Repr

/-- Oracle environment for the Python facilities the engine calls out to.
`parseSchema s` models `json.loads(s)` on a schema text: `none` covers both
a `JSONDecodeError` (the source then substitutes `{}`) and a successful
parse to a falsy value, since the two are indistinguishable downstream;
`some v` is a successful parse to a truthy schema value identified by `v`.
`jsonschemaAvailable` is whether `import jsonschema` succeeds, and
`jsValidate` models `jsonschema.validate` on a truthy schema. -/
structure JsonEnv where
  parseSchema : String → Option String
  jsonschemaAvailable : Bool
  jsValidate : String → Args → JsOutcome

/-- Embedding of `_parse_schema`: falsy or unparseable schema text yields
the falsy schema `none`. -/
def parse_schema (env : JsonEnv) (schema_json : Option String) : Option String :=
  match schema_json with
  | none => none
  | some s => if s = "" then none else env.parseSchema s

/-- Embedding of `_validate_schema`: an empty (falsy) schema passes; when
the `jsonschema` import fails validation is skipped and passes; otherwise
the outcome of `jsonschema.validate` decides. -/
def validate_schema (env : JsonEnv) (args : Args) (schema : Option String) :
    Bool × String :=
  match schema with
  | none => (true, "")
  | some s =>
    if ¬ env.jsonschemaAvailable then (true, "")
    else
      match env.jsValidate s args with
      | .passed => (true, "")
      | .validationError m => (false, "Schema validation failed: " ++ m)
      | .otherError m => (false, "Validation error: " ++ m)

/-- Embedding of `decide_execute` in `api/policy/engine.py`: scope check,
enabled check, risk-level evaluation (unknown strings default to
`exec_low`), mandatory approval for `exec_high`/`write`, and schema
validation only for the remaining risk levels. -/
def decide_execute (env : JsonEnv) (scopes : List String) (tool : ToolDict)
    (args : Args) : Decision :=
  if ¬ scopes.contains "tool:execute" then
    { allowed := false, requires_approval := false,
      reason := "missing required scope: tool:execute" }
  else if tool.is_enabled.getD 1 ≠ 1 then
    { allowed := false, requires_approval := false, reason := "tool is disabled" }
  else
    let risk_level_str := tool.risk_level.getD "exec_low"
    let risk_level := (riskLevelOfString risk_level_str).getD RiskLevel.exec_low
    if APPROVAL_REQUIRED_RISKS.contains risk_level then
      { allowed := true, requires_approval := true,
        reason := "risk_level=" ++ risk_level.value ++ " requires approval" }
    else
      let v := validate_schema env args (parse_schema env tool.args_schema_json)
      if ¬ v.1 then
        { allowed := false, requires_approval := false, reason := v.2 }
      else
        { allowed := true, requires_approval := false, reason := "policy check passed" }

end Policy

namespace Agent

/-- Step status enumeration, `StepStatus` in `agent/models.py`. -/
inductive StepStatus
  | pending
  | in_progress
  | completed
  | failed
  | blocked
  | skipped
deriving DecidableEq, Repr

/-- Embedding of `AgentExecutor._get_overall_status` in `agent/executor.py`,
over the list of statuses of the recorded step results (the source iterates
over `results.values()`; only membership counts are inspected, so the list
of statuses is a faithful projection). -/
def get_overall_status (statuses : List StepStatus) : String :=
  if statuses.isEmpty then "failed"
  else if statuses.all fun s => decide (s = .completed) then "success"
  else if statuses.any fun s => decide (s = .failed) then
    if statuses.any fun s => decide (s = .completed) then "partial" else "failed"
  else if statuses.any fun s => decide (s = .blocked) then "blocked"
  else "partial"

end Agent

namespace Paths

/-- Model of a `pathlib.PurePosixPath`: an absolute flag plus the component
list, with `"."` and empty components dropped exactly as `PurePath` does;
`".."` components are kept. -/
structure PyPath where
  absolute : Bool
  parts : List String
deriving DecidableEq, Repr

/-- Splitting a string on the `/` separator (over the character list, so
that concrete instances evaluate inside the kernel). -/
def splitSlash (s : String) : List String :=
  s.toList.foldr
    (fun c acc =>
      match acc with
      | [] => if c = '/' then ["", ""] else [String.singleton c]
      | cur :: rest =>
        if c = '/' then "" :: cur :: rest else (String.singleton c ++ cur) :: rest)
    [""]

/-- Whether a POSIX path string is absolute (leading `/`). -/
def isAbsoluteStr (s : String) : Bool :=
  match s.toList with
  | [] => false
  | c :: _ => c = '/'

/-- Model of the `Path(raw)` constructor on a POSIX path string. -/
def parsePath (s : String) : PyPath :=
  { absolute := isAbsoluteStr s,
    parts := (splitSlash s).filter fun p => decide (¬ (p = "" ∨ p = ".")) }

/-- Model of `p in c.parents` for `pathlib` paths: `p` is a strict prefix
of `c` with the same absoluteness. -/
def inParents (p c : PyPath) : Bool :=
  decide (p.absolute = c.absolute ∧ p.parts <+: c.parts ∧ p.parts ≠ c.parts)

/-- Embedding of the submission-time guard `_path_is_allowed` in
`api/routes/tool_runs.py`: empty prefix list passes everything; absolute
candidates must sit under an absolute prefix; relative candidates with a
`".."` component are rejected outright; remaining relative candidates must
match a `"."` prefix or nest under some prefix. -/
def path_is_allowed (raw : String) (allowed_prefixes : List PyPath) : Bool :=
  if allowed_prefixes.isEmpty then true
  else
    let candidate := parsePath raw
    if candidate.absolute then
      allowed_prefixes.any fun pref =>
        pref.absolute && (decide (candidate = pref) || inParents pref candidate)
    else if candidate.parts.any fun part => decide (part = "..") then false
    else
      allowed_prefixes.any fun pref =>
        decide (pref = parsePath ".") || decide (candidate = pref) ||
          inParents pref candidate

/-- Lexical normalization of the component list of an absolute path, the
effect of `Path.resolve(strict=False)` on a path with no existing or
symlinked components: `".."` pops the previous component and collapses to
the root when there is none. -/
def resolveAbsParts (parts : List String) : List String :=
  parts.foldl (fun acc part => if part = ".." then acc.dropLast else acc ++ [part]) []

/-- Model of `Path.resolve(strict=False)`. In the worker the resolved path
is always absolute (the candidate and prefixes are joined onto the worker
base directory first), so normalization is purely lexical. -/
def resolvePath (p : PyPath) : PyPath :=
  { absolute := p.absolute, parts := resolveAbsParts p.parts }

/-- Model of the `/` operator: joining onto a base (used only when the
right operand is relative, as in the source). -/
def joinPath (base p : PyPath) : PyPath :=
  { absolute := base.absolute, parts := base.parts ++ p.parts }

/-- Embedding of the dispatch-time guard `_is_allowed` inside
`run_tool_job` (`worker/jobs_v2.py`): candidates are joined onto the base
directory and resolved, a `"."` prefix stands for the base directory, and
each prefix is likewise joined and resolved before the containment test.
The base directory (`WORKSPACE` or `os.getcwd()`) is absolute. -/
def is_allowed (raw : String) (allowed_prefixes : List PyPath) (base : PyPath) :
    Bool :=
  if allowed_prefixes.isEmpty then true
  else
    let candidate0 := parsePath raw
    let candidate1 := if candidate0.absolute then candidate0 else joinPath base candidate0
    let candidate := resolvePath candidate1
    allowed_prefixes.any fun pref =>
      let p0 := if pref = parsePath "." then base else pref
      let p1 := if p0.absolute then p0 else joinPath base p0
      let p := resolvePath p1
      decide (candidate = p) || inParents p candidate

end Paths

namespace Db

/-- Row of the `approval_requests` table, restricted to the columns the
embedded code reads or writes.  `payloadToolId` is the `tool_id` entry of
the parsed `payload_json` column: `none` models a missing or falsy entry
and also an unparseable payload (the source's `except` branch substitutes
`{}`).  `payloadArgs` is likewise the `args` entry (`{}` when absent). -/
structure ApprovalRow where
  id : String
  status : String
  resourceType : String
  resourceId : String
  payloadToolId : Option String
  payloadArgs : Args
  createdAt : Nat
  createdByUserId : Option String := none
  decidedAt : Option String := none
  decidedByUserId : Option String := none
  decisionNote : Option String := none
deriving DecidableEq, Repr

/-- Row of the `tool_runs` table, restricted to the columns the embedded
code reads or writes. -/
structure RunRow where
  id : String
  toolId : String
  status : String
  startedAt : Option String := none
  finishedAt : Option String := none
  exitCode : Option Int := none
  errorMsg : Option String := none
  stdoutPath : Option String := none
  stderrPath : Option String := none
deriving DecidableEq, Repr

/-- Row of the `tools` table, restricted to the columns `run_tool_job`
reads.  `none` on an optional column models SQL NULL / an absent key. -/
structure ToolRow where
  id : String
  commandJson : String
  cwd : Option String := none
  timeoutSec : Option Int := none
  argsSchemaJson : Option String := none
  allowedPathsJson : Option String := none
  executor : Option String := none
deriving DecidableEq, Repr

/-- The transactional store: the three tables the embedded code touches. -/
structure Store where
  approvals : List ApprovalRow
  runs : List RunRow
  tools : List ToolRow
deriving DecidableEq, Repr

/-- First row matching an approval id (`SELECT * FROM approval_requests
WHERE id=?`; ids are primary keys, so at most one row matches). -/
def findApproval (st : Store) (approvalId : String) : Option ApprovalRow :=
  st.approvals.find? fun a => a.id == approvalId

/-- `SELECT * FROM tools WHERE id=?` (`get_tool` in `api/tools/registry.py`). -/
def getTool (st : Store) (toolId : String) : Option ToolRow :=
  st.tools.find? fun t => t.id == toolId

/-- `SELECT * FROM tool_runs WHERE id=?`. -/
def getRun (st : Store) (runId : String) : Option RunRow :=
  st.runs.find? fun r => r.id == runId

/-- The latest approval row for a run (`... WHERE resource_type='run' AND
resource_id=? ORDER BY created_at DESC LIMIT 1`).  On a `created_at` tie
SQLite's choice is unspecified; the embedding keeps the earlier-listed row,
and every state considered below has at most one matching row. -/
def latestRunApproval (approvals : List ApprovalRow) (runId : String) :
    Option ApprovalRow :=
  (approvals.filter fun a => a.resourceType == "run" && a.resourceId == runId).foldl
    (fun acc a =>
      match acc with
      | none => some a
      | some b => if a.createdAt > b.createdAt then some a else some b)
    none

/-- Status of an approval row in a store, for stating observations. -/
def approvalStatus (st : Store) (approvalId : String) : Option String :=
  (findApproval st approvalId).map (·.status)

/-- Status of a run row in a store, for stating observations. -/
def runStatus (st : Store) (runId : String) : Option String :=
  (getRun st runId).map (·.status)

/-- Audit event as recorded by `log_event` in `api/audit/service.py`,
restricted to the arguments the embedded call sites pass (the `meta`
dictionary and `actor_device_id` are dropped: no claim inspects them). -/
structure AuditEvent where
  eventType : String
  action : String
  status : String
  actorUserId : Option String
  resourceType : Option String
  resourceId : Option String
  message : String
deriving DecidableEq, Repr

end Db

namespace Approvals

open Db

/-- Outcome of an HTTP endpoint invocation: a normal JSON response, an
`HTTPException`, or an uncaught Python exception (which FastAPI surfaces
as a 500 response). -/
inductive HttpOutcome
  | ok
  | httpError (code : Nat) (detail : String)
  | pyError (excClass : String)
deriving DecidableEq, Repr

/-- Result of running an endpoint body: the sequence of database states
made durable by each `conn.commit()` (in order — after a crash, any prefix
of these is what survives), the run ids actually submitted to the work
queue, and the HTTP outcome. -/
structure EndpointResult where
  commits : List Store
  enqueued : List String
  outcome : HttpOutcome
deriving DecidableEq, Repr

/-- The `UPDATE approval_requests SET status=..., decided_at=?,
decided_by_user_id=?, decision_note=? WHERE id=?` statement. -/
def decideApprovalRow (st : Store) (approvalId newStatus now userId note : String) :
    Store :=
  { st with
    approvals := st.approvals.map fun a =>
      if a.id = approvalId then
        { a with status := newStatus, decidedAt := some now,
                 decidedByUserId := some userId, decisionNote := some note }
      else a }

/-- `UPDATE tool_runs SET status='queued' WHERE id=?`. -/
def setRunQueued (st : Store) (runId : String) : Store :=
  { st with
    runs := st.runs.map fun r =>
      if r.id = runId then { r with status := "queued" } else r }

/-- `UPDATE tool_runs SET status='denied', finished_at=?, error_msg=?
WHERE id=?`. -/
def setRunDenied (st : Store) (runId now errorMsg : String) : Store :=
  { st with
    runs := st.runs.map fun r =>
      if r.id = runId then
        { r with status := "denied", finishedAt := some now,
                 errorMsg := some errorMsg }
      else r }

/-- Embedding of the `approve` endpoint in `api/approvals/router.py`.
The body commits the approval-request update first, then (for a run-typed
request with a truthy payload `tool_id`) commits the run-status update in
a second, separate transaction, and only then builds the `enqueue` call —
whose `row.get("created_by_user_id")` argument is evaluated on a
`sqlite3.Row`, which has no `get` method, so an `AttributeError` is raised
before anything is submitted to the queue. -/
def approve (st : Store) (approvalId : String) (note : String)
    (tokenUserId : String) (now : String) : EndpointResult :=
  match findApproval st approvalId with
  | none => { commits := [], enqueued := [], outcome := .httpError 404 "not found" }
  | some row =>
    if row.status ≠ "pending" then
      { commits := [], enqueued := [], outcome := .httpError 409 "not pending" }
    else
      let st1 := decideApprovalRow st approvalId "approved" now tokenUserId note
      if row.resourceType = "run" then
        match row.payloadToolId with
        | some toolId =>
          if toolId ≠ "" then
            let st2 := setRunQueued st1 row.resourceId
            { commits := [st1, st2], enqueued := [],
              outcome := .pyError "AttributeError" }
          else
            { commits := [st1], enqueued := [], outcome := .ok }
        | none => { commits := [st1], enqueued := [], outcome := .ok }
      else { commits := [st1], enqueued := [], outcome := .ok }

/-- Embedding of the `deny` endpoint in `api/approvals/router.py`: the
approval-request update and (for a run-typed request) the run update are
made durable by a single `conn.commit()` at the end; an empty decision
note falls back to the string `"denied"` (`note or "denied"`). -/
def deny (st : Store) (approvalId : String) (note : String)
    (tokenUserId : String) (now : String) : EndpointResult :=
  match findApproval st approvalId with
  | none => { commits := [], enqueued := [], outcome := .httpError 404 "not found" }
  | some row =>
    if row.status ≠ "pending" then
      { commits := [], enqueued := [], outcome := .httpError 409 "not pending" }
    else
      let st1 := decideApprovalRow st approvalId "denied" now tokenUserId note
      let st2 :=
        if row.resourceType = "run" then
          setRunDenied st1 row.resourceId now (if note = "" then "denied" else note)
        else st1
      { commits := [st2], enqueued := [], outcome := .ok }

end Approvals

namespace Worker

open Db

/-- Embedding of `is_run_approved` in `worker/policy_enforce.py`: with no
approval record the run is treated as not requiring approval (`True`);
otherwise the latest record must be `approved`. -/
def is_run_approved (approvals : List ApprovalRow) (runId : String) : Bool :=
  match latestRunApproval approvals runId with
  | none => true
  | some row => row.status == "approved"

/-- Outcome of the dispatch-time schema check (source block 4.1 of
`run_tool_job`): `json.loads` on the schema column followed by
`jsonschema.validate`; `validationError` is the `ValidationError` branch
and `otherError` the generic `except Exception` branch (which also covers
an unparseable schema column). -/
inductive SchemaOutcome
  | ok
  | validationError (msg : String)
  | otherError (msg : String)
deriving DecidableEq, Repr

/-- Oracles for the Python library calls `run_tool_job` makes:
`parseJsonOk c` is whether `json.loads` succeeds on the `command_json`
column text, and `jsValidate s args` is the combined outcome of parsing
and validating against a non-empty `args_schema_json` column `s`. -/
structure PyEnv where
  parseJsonOk : String → Bool
  jsValidate : String → Args → SchemaOutcome

/-- How a `run_tool_job` invocation ends from the queue's point of view:
a normal return, or an uncaught Python exception of the named class
propagating to the queue worker. -/
inductive JobOutcome
  | returned
  | raised (excClass : String)
deriving DecidableEq, Repr

/-- Result of one `run_tool_job` invocation: the database states made
durable by each `conn.commit()` in order, the audit events emitted via
`log_event`, and how the call ended. -/
structure JobResult where
  commits : List Store
  events : List AuditEvent
  outcome : JobOutcome
deriving DecidableEq, Repr

/-- `UPDATE tool_runs SET status=? WHERE id=?` (blocked branch). -/
def setRunStatusOnly (st : Store) (runId newStatus : String) : Store :=
  { st with
    runs := st.runs.map fun r =>
      if r.id = runId then { r with status := newStatus } else r }

/-- `UPDATE tool_runs SET status='failed', finished_at=? WHERE id=?`
(missing-tool branch; note: no error message is recorded). -/
def setRunFailedNoMsg (st : Store) (runId now : String) : Store :=
  { st with
    runs := st.runs.map fun r =>
      if r.id = runId then { r with status := "failed", finishedAt := some now } else r }

/-- `UPDATE tool_runs SET status='running', started_at=? WHERE id=?`. -/
def setRunRunning (st : Store) (runId now : String) : Store :=
  { st with
    runs := st.runs.map fun r =>
      if r.id = runId then { r with status := "running", startedAt := some now } else r }

/-- `UPDATE tool_runs SET status='failed', finished_at=?, error_msg=?
WHERE id=?` (schema-failure branches). -/
def setRunFailedMsg (st : Store) (runId now msg : String) : Store :=
  { st with
    runs := st.runs.map fun r =>
      if r.id = runId then
        { r with status := "failed", finishedAt := some now, errorMsg := some msg }
      else r }

/-- The `run.blocked` audit event emitted by the not-approved branch. -/
def blockedEvent (userId : Option String) (runId : String) : AuditEvent :=
  { eventType := "run.blocked", action := "execute", status := "fail",
    actorUserId := userId, resourceType := some "run", resourceId := some runId,
    message := "Run blocked: not approved" }

/-- The `run.invalid_args` audit event emitted by the schema-failure branch. -/
def invalidArgsEvent (userId : Option String) (runId msg : String) : AuditEvent :=
  { eventType := "run.invalid_args", action := "execute", status := "fail",
    actorUserId := userId, resourceType := some "run", resourceId := some runId,
    message := msg }

/-- Embedding of `run_tool_job` in `worker/jobs_v2.py`, followed literally:
approval gate, tool load, run load, the `running` update, `json.loads` on
the command template, the schema check — and then the path-guard setup
line `base_dir = Path(env.get("WORKSPACE") or os.getcwd())`, which reads
the local variable `env` that is only assigned further down the function,
so every execution reaching that line raises `UnboundLocalError` to the
queue.  The code below that line (path loop, environment construction,
executor selection and invocation, terminal updates and their audit
events) is unreachable and therefore has no branch here. -/
def run_tool_job (env : PyEnv) (st : Store) (runId toolId : String) (args : Args)
    (userId : Option String) (now : String) : JobResult :=
  if ¬ is_run_approved st.approvals runId then
    let approvalStat := (latestRunApproval st.approvals runId).map (·.status)
    let newStatus := if approvalStat = some "denied" then "denied" else "pending_approval"
    { commits := [setRunStatusOnly st runId newStatus],
      events := [blockedEvent userId runId],
      outcome := .returned }
  else
    match getTool st toolId with
    | none =>
      { commits := [setRunFailedNoMsg st runId now], events := [], outcome := .returned }
    | some tool =>
      match getRun st runId with
      | none => { commits := [], events := [], outcome := .returned }
      | some _run =>
        let st1 := setRunRunning st runId now
        if ¬ env.parseJsonOk tool.commandJson then
          { commits := [st1], events := [], outcome := .raised "JSONDecodeError" }
        else
          let schemaCheck :=
            match tool.argsSchemaJson with
            | none => SchemaOutcome.ok
            | some s => if s = "" then SchemaOutcome.ok else env.jsValidate s args
          match schemaCheck with
          | .validationError m =>
            let msg := "args_schema 校验失败: " ++ m
            { commits := [st1, setRunFailedMsg st1 runId now msg],
              events := [invalidArgsEvent userId runId msg],
              outcome := .returned }
          | .otherError m =>
            let msg := "args_schema 解析/校验异常: " ++ m
            { commits := [st1, setRunFailedMsg st1 runId now msg],
              events := [],
              outcome := .returned }
          | .ok =>
            { commits := [st1], events := [], outcome := .raised "UnboundLocalError" }

end Worker

/-! Concrete fixtures used by the witnesses and counterexamples below. -/

/-- Python-environment oracle in which `json.loads` succeeds on every
command template and dispatch-time schema validation passes. -/
def okEnv : Worker.PyEnv :=
  { parseJsonOk := fun _ => true, jsValidate := fun _ _ => .ok }

/-- Policy-engine oracle with `jsonschema` importable and a validator that
rejects every argument map. -/
def strictEnv : Policy.JsonEnv :=
  { parseSchema := fun s => some s, jsonschemaAvailable := true,
    jsValidate := fun _ _ => .validationError "args rejected" }

/-- Policy-engine oracle in which the `jsonschema` import fails. -/
def noJsEnv : Policy.JsonEnv :=
  { parseSchema := fun s => some s, jsonschemaAvailable := false,
    jsValidate := fun _ _ => .validationError "invalid" }

/-- A pending run-typed approval request whose payload carries a tool id,
with its linked run parked in `pending_approval`. -/
def c1Store : Db.Store :=
  { approvals := [{ id := "a1", status := "pending", resourceType := "run",
                    resourceId := "r1", payloadToolId := some "t1", payloadArgs := [],
                    createdAt := 1, createdByUserId := some "u0" }],
    runs := [{ id := "r1", toolId := "t1", status := "pending_approval" }],
    tools := [] }

/-- A queued run with no approval record and a registered tool. -/
def c2Store : Db.Store :=
  { approvals := [],
    runs := [{ id := "r2", toolId := "t2", status := "queued" }],
    tools := [{ id := "t2", commandJson := "[\"echo\", \"hi\"]" }] }

/-- A queued run with no approval record at all (nothing approved was ever
recorded in the ledger for it). -/
def c4Store : Db.Store :=
  { approvals := [],
    runs := [{ id := "r4", toolId := "t4", status := "queued" }],
    tools := [{ id := "t4", commandJson := "[\"ls\"]" }] }

/-- A run whose latest approval record is `denied`. -/
def c4dStore : Db.Store :=
  { approvals := [{ id := "a9", status := "denied", resourceType := "run",
                    resourceId := "r9", payloadToolId := some "t9", payloadArgs := [],
                    createdAt := 2 }],
    runs := [{ id := "r9", toolId := "t9", status := "queued" }],
    tools := [{ id := "t9", commandJson := "[\"ls\"]" }] }

/-- A run that already reached the terminal state `succeeded` (exit code 0
recorded), with no approval record, re-delivered by the queue. -/
def c5Store : Db.Store :=
  { approvals := [],
    runs := [{ id := "r5", toolId := "t5", status := "succeeded",
               startedAt := some "T0", finishedAt := some "T1", exitCode := some 0 }],
    tools := [{ id := "t5", commandJson := "[\"true\"]" }] }

/-- An approval request that was already decided (`approved`). -/
def c8Store : Db.Store :=
  { approvals := [{ id := "a8", status := "approved", resourceType := "run",
                    resourceId := "r8", payloadToolId := some "t8", payloadArgs := [],
                    createdAt := 3 }],
    runs := [{ id := "r8", toolId := "t8", status := "queued" }],
    tools := [] }

/-! Theorems settling the claims. -/

/-- C1: the claim asserts that a successful approve call on a pending
run-typed approval request atomically records the approval, moves the run
to `queued` and enqueues it, with no observable intermediate state even on
partial failure.  Evaluating the embedded `approve` endpoint at such a
request shows the code commits the approval decision in one transaction
(leaving an approved request pointing at a still-`pending_approval` run as
a durable, observable state), commits the run-status change in a second
transaction, and then raises `AttributeError` (`sqlite3.Row` has no `get`
method) before anything is enqueued: the final durable state is a
`queued` run that was never submitted to the work queue, and the call
fails with an uncaught exception. -/
theorem C1_approve_not_atomic :
    (Approvals.approve c1Store "a1" "ok" "admin" "T1").commits.map
        (fun s => (Db.approvalStatus s "a1", Db.runStatus s "r1")) =
      [(some "approved", some "pending_approval"), (some "approved", some "queued")]
  ∧ (Approvals.approve c1Store "a1" "ok" "admin" "T1").enqueued = []
  ∧ (Approvals.approve c1Store "a1" "ok" "admin" "T1").outcome =
      .pyError "AttributeError" := by
  decide

/-- C2: the claim asserts `run_tool_job` never propagates an exception to
the queue.  Evaluating the embedded job at an approved run with a
registered tool and passing schema shows the body reads the local variable
`env` (in `base_dir = Path(env.get("WORKSPACE") or os.getcwd())`) before
it is assigned, so the call raises `UnboundLocalError` to the queue, with
no terminal `failed` state recorded and no audit event emitted. -/
theorem C2_unhandled_exception_propagates :
    Worker.run_tool_job okEnv c2Store "r2" "t2" [] (some "u1") "T2" =
      { commits := [Worker.setRunRunning c2Store "r2" "T2"], events := [],
        outcome := .raised "UnboundLocalError" } := by
  decide

/-- C3: for every validation environment, every scope set containing the
execution capability, every enabled tool whose declared risk level is
`exec_high` or `write`, and every argument map, `decide_execute` returns
`allowed = true` and `requires_approval = true`; the result does not
depend on the validation environment, so no schema validation is
performed for these risk levels. -/
theorem C3_high_risk_requires_approval (env : Policy.JsonEnv)
    (scopes : List String) (tool : Policy.ToolDict) (args : Args)
    (hscope : scopes.contains "tool:execute" = true)
    (henabled : tool.is_enabled.getD 1 = 1)
    (hrisk : tool.risk_level = some "exec_high" ∨ tool.risk_level = some "write") :
    Policy.decide_execute env scopes tool args =
      { allowed := true, requires_approval := true,
        reason := "risk_level=" ++ tool.risk_level.getD "exec_low"
          ++ " requires approval" } := by
  have hmem : "tool:execute" ∈ scopes := by simpa using hscope
  rcases hrisk with h | h <;>
    simp [Policy.decide_execute, h, hmem, henabled, Policy.riskLevelOfString,
      Policy.APPROVAL_REQUIRED_RISKS, Policy.RiskLevel.value]

/-- Witness for C3 at a concrete input: even with a validator that rejects
every argument map, a `write`-risk enabled tool gets
`allowed = true, requires_approval = true`. -/
theorem C3_high_risk_requires_approval_witness :
    Policy.decide_execute strictEnv ["tool:execute"]
      { is_enabled := some 1, risk_level := some "write",
        args_schema_json := some "schema-object" } [("path", "x")] =
      { allowed := true, requires_approval := true,
        reason := "risk_level=write requires approval" } :=
  C3_high_risk_requires_approval strictEnv ["tool:execute"]
    { is_enabled := some 1, risk_level := some "write",
      args_schema_json := some "schema-object" } [("path", "x")]
    (by decide) rfl (Or.inr rfl)

/-- C4: the claim asserts a run never proceeds toward executor invocation
without a terminal approved decision recorded in the ledger, even when it
was enqueued with no approval record, and that a not-approved run is
parked with a `run.blocked` audit event.  Counterexample: for a run with
no approval record at all, `is_run_approved` returns `true` (no record is
treated as "no approval required"), and the job proceeds past the gate —
it marks the run `running` and emits no `run.blocked` event — although no
approved decision exists in the ledger. -/
theorem C4_counterexample_no_record_proceeds :
    Db.latestRunApproval c4Store.approvals "r4" = none
  ∧ Worker.is_run_approved c4Store.approvals "r4" = true
  ∧ (Worker.run_tool_job okEnv c4Store "r4" "t4" [] none "T5").events = []
  ∧ (Worker.run_tool_job okEnv c4Store "r4" "t4" [] none "T5").commits.map
      (fun s => Db.runStatus s "r4") = [some "running"] := by
  decide

/-- C4 (amended): the dequeue-time gate blocks exactly the runs whose
latest approval record exists and is not `approved`: such a run is parked
(`denied` when the record is denied, otherwise `pending_approval`), never
`failed`, a `run.blocked` audit event is emitted, and the invocation
returns without proceeding further; a run with no approval record at all
is treated as not requiring approval and proceeds. -/
theorem C4_amended_gate_blocks_unapproved (env : Worker.PyEnv) (st : Db.Store)
    (runId toolId : String) (args : Args) (userId : Option String) (now : String)
    (row : Db.ApprovalRow)
    (hlatest : Db.latestRunApproval st.approvals runId = some row)
    (hna : row.status ≠ "approved") :
    Worker.is_run_approved st.approvals runId = false
  ∧ Worker.run_tool_job env st runId toolId args userId now =
      { commits := [Worker.setRunStatusOnly st runId
            (if row.status = "denied" then "denied" else "pending_approval")],
        events := [Worker.blockedEvent userId runId],
        outcome := .returned }
  ∧ (if row.status = "denied" then "denied" else "pending_approval") ≠ "failed" := by
  have happ : Worker.is_run_approved st.approvals runId = false := by
    simp [Worker.is_run_approved, hlatest, hna]
  refine ⟨happ, ?_, ?_⟩
  · simp [Worker.run_tool_job, happ, hlatest]
  · by_cases h : row.status = "denied" <;> simp [h]

/-- Witness for C4 (amended) at a concrete input: a run whose latest
approval record is `denied` is parked as `denied` with a `run.blocked`
audit event. -/
theorem C4_amended_gate_blocks_unapproved_witness :
    Worker.is_run_approved c4dStore.approvals "r9" = false
  ∧ Worker.run_tool_job okEnv c4dStore "r9" "t9" [] none "T4" =
      { commits := [Worker.setRunStatusOnly c4dStore "r9" "denied"],
        events := [Worker.blockedEvent none "r9"],
        outcome := .returned } := by
  have h := C4_amended_gate_blocks_unapproved okEnv c4dStore "r9" "t9" [] none "T4"
      { id := "a9", status := "denied", resourceType := "run", resourceId := "r9",
        payloadToolId := some "t9", payloadArgs := [], createdAt := 2 }
      (by decide) (by decide)
  exact ⟨h.1, by simpa using h.2.1⟩

/-- C5: the claim asserts re-delivery of an already-terminal run is a
no-op leaving stored status, exit code and timestamps unchanged.
Evaluating the embedded job at a run already recorded as `succeeded`
(with exit code 0) shows the code performs no terminal-state check: it
overwrites the stored status with `running` and the start timestamp with
the new time (a durable, committed change to a terminal run), then raises
`UnboundLocalError` toward a second execution instead of returning. -/
theorem C5_redelivery_mutates_terminal_run :
    Db.runStatus c5Store "r5" = some "succeeded"
  ∧ Worker.run_tool_job okEnv c5Store "r5" "t5" [] none "T9" =
      { commits := [Worker.setRunRunning c5Store "r5" "T9"], events := [],
        outcome := .raised "UnboundLocalError" }
  ∧ Db.runStatus (Worker.setRunRunning c5Store "r5" "T9") "r5" = some "running"
  ∧ (Db.getRun (Worker.setRunRunning c5Store "r5" "T9") "r5").map (·.startedAt) =
      some (some "T9") := by
  decide

/-- C6: the claim asserts both path guards reject every relative candidate
containing a `..` segment when the allow-list is non-empty.
Counterexample: the dispatch-time guard `_is_allowed` in the worker
resolves the candidate against the base directory first, so the relative,
`..`-containing candidate `"../workspace/x"` is accepted under the
non-empty allow-list `["."]` with base `/workspace` (its resolved path
lands back inside the base). -/
theorem C6_counterexample_worker_guard_accepts_dotdot :
    (Paths.parsePath "../workspace/x").absolute = false
  ∧ ".." ∈ (Paths.parsePath "../workspace/x").parts
  ∧ Paths.is_allowed "../workspace/x" [Paths.parsePath "."]
      (Paths.parsePath "/workspace") = true := by
  decide

/-- C6 (amended): the submission-time guard `_path_is_allowed` rejects
every relative candidate containing a `..` segment whenever the prefix
list is non-empty; the dispatch-time guard `_is_allowed` instead resolves
the candidate against the worker base directory and accepts a
`..`-containing candidate whose resolved path stays inside an allowed
prefix, as witnessed by `"../workspace/x"` under allow-list `["."]`. -/
theorem C6_amended_submission_guard_rejects_dotdot (raw : String)
    (allowed_prefixes : List Paths.PyPath)
    (hne : allowed_prefixes ≠ [])
    (hrel : (Paths.parsePath raw).absolute = false)
    (hdots : ".." ∈ (Paths.parsePath raw).parts) :
    Paths.path_is_allowed raw allowed_prefixes = false
  ∧ Paths.is_allowed "../workspace/x" [Paths.parsePath "."]
      (Paths.parsePath "/workspace") = true := by
  constructor
  · have h0 : allowed_prefixes.isEmpty = false := by
      cases allowed_prefixes with
      | nil => exact absurd rfl hne
      | cons a l => rfl
    have hany : ((Paths.parsePath raw).parts.any fun part => decide (part = "..")) =
        true := by
      simp only [List.any_eq_true, decide_eq_true_eq]
      exact ⟨"..", hdots, rfl⟩
    simp [Paths.path_is_allowed, h0, hrel, hany]
  · decide

/-- Witness for C6 (amended) at a concrete input: the submission-time
guard rejects `"../x"` under the non-empty allow-list `["workspace"]`. -/
theorem C6_amended_submission_guard_rejects_dotdot_witness :
    Paths.path_is_allowed "../x" [Paths.parsePath "workspace"] = false :=
  (C6_amended_submission_guard_rejects_dotdot "../x" [Paths.parsePath "workspace"]
    (by decide) (by decide) (by decide)).1

/-- C7: for every non-empty list of recorded step statuses, the aggregate
status is `success` when every step completed, `failed` when none
completed and at least one failed, `partial` when completed and failed
steps are mixed, and `blocked` when no step failed but at least one is
blocked. -/
theorem C7_overall_status_classification (results : List Agent.StepStatus)
    (hne : results ≠ []) :
    ((∀ s ∈ results, s = Agent.StepStatus.completed) →
        Agent.get_overall_status results = "success")
  ∧ ((∀ s ∈ results, s ≠ Agent.StepStatus.completed) →
      (∃ s ∈ results, s = Agent.StepStatus.failed) →
        Agent.get_overall_status results = "failed")
  ∧ ((∃ s ∈ results, s = Agent.StepStatus.completed) →
      (∃ s ∈ results, s = Agent.StepStatus.failed) →
        Agent.get_overall_status results = "partial")
  ∧ ((∀ s ∈ results, s ≠ Agent.StepStatus.failed) →
      (∃ s ∈ results, s = Agent.StepStatus.blocked) →
        Agent.get_overall_status results = "blocked") := by
  have h0 : results.isEmpty = false := by
    cases results with
    | nil => exact absurd rfl hne
    | cons a l => rfl
  refine ⟨?_, ?_, ?_, ?_⟩
  · intro h
    have hall : (results.all fun s => decide (s = Agent.StepStatus.completed)) =
        true := by
      simp only [List.all_eq_true, decide_eq_true_eq]
      exact h
    simp [Agent.get_overall_status, h0, hall]
  · intro hnc hf
    obtain ⟨x, hx, hxf⟩ := hf
    have hall : (results.all fun s => decide (s = Agent.StepStatus.completed)) =
        false := by
      simp only [List.all_eq_false, decide_eq_true_eq]
      exact ⟨x, hx, by rw [hxf]; decide⟩
    have hanyf : (results.any fun s => decide (s = Agent.StepStatus.failed)) =
        true := by
      simp only [List.any_eq_true, decide_eq_true_eq]
      exact ⟨x, hx, hxf⟩
    have hanyc : (results.any fun s => decide (s = Agent.StepStatus.completed)) =
        false := by
      simp only [List.any_eq_false, decide_eq_true_eq]
      exact hnc
    simp [Agent.get_overall_status, h0, hall, hanyf, hanyc]
  · intro hc hf
    obtain ⟨x, hx, hxc⟩ := hc
    obtain ⟨y, hy, hyf⟩ := hf
    have hall : (results.all fun s => decide (s = Agent.StepStatus.completed)) =
        false := by
      simp only [List.all_eq_false, decide_eq_true_eq]
      exact ⟨y, hy, by rw [hyf]; decide⟩
    have hanyf : (results.any fun s => decide (s = Agent.StepStatus.failed)) =
        true := by
      simp only [List.any_eq_true, decide_eq_true_eq]
      exact ⟨y, hy, hyf⟩
    have hanyc : (results.any fun s => decide (s = Agent.StepStatus.completed)) =
        true := by
      simp only [List.any_eq_true, decide_eq_true_eq]
      exact ⟨x, hx, hxc⟩
    simp [Agent.get_overall_status, h0, hall, hanyf, hanyc]
  · intro hnf hb
    obtain ⟨x, hx, hxb⟩ := hb
    have hall : (results.all fun s => decide (s = Agent.StepStatus.completed)) =
        false := by
      simp only [List.all_eq_false, decide_eq_true_eq]
      exact ⟨x, hx, by rw [hxb]; decide⟩
    have hanyf : (results.any fun s => decide (s = Agent.StepStatus.failed)) =
        false := by
      simp only [List.any_eq_false, decide_eq_true_eq]
      exact hnf
    have hanyb : (results.any fun s => decide (s = Agent.StepStatus.blocked)) =
        true := by
      simp only [List.any_eq_true, decide_eq_true_eq]
      exact ⟨x, hx, hxb⟩
    simp [Agent.get_overall_status, h0, hall, hanyf, hanyb]

/-- Witness for C7 at concrete inputs, one per classification case. -/
theorem C7_overall_status_classification_witness :
    Agent.get_overall_status [.completed, .completed] = "success"
  ∧ Agent.get_overall_status [.failed, .skipped] = "failed"
  ∧ Agent.get_overall_status [.completed, .failed] = "partial"
  ∧ Agent.get_overall_status [.completed, .blocked] = "blocked" :=
  ⟨(C7_overall_status_classification [.completed, .completed] (by decide)).1
      (by decide),
   (C7_overall_status_classification [.failed, .skipped] (by decide)).2.1
      (by decide) (by decide),
   (C7_overall_status_classification [.completed, .failed] (by decide)).2.2.1
      (by decide) (by decide),
   (C7_overall_status_classification [.completed, .blocked] (by decide)).2.2.2
      (by decide) (by decide)⟩

/-- C8: deciding an already-decided approval request (status not
`pending`) fails with a 409 conflict on both the approve and the deny
endpoint, and commits nothing: the recorded decision and the linked run's
state are unchanged. -/
theorem C8_double_decision_conflict (st : Db.Store)
    (approvalId note userId now : String) (row : Db.ApprovalRow)
    (hfind : Db.findApproval st approvalId = some row)
    (hst : row.status ≠ "pending") :
    Approvals.approve st approvalId note userId now =
      { commits := [], enqueued := [], outcome := .httpError 409 "not pending" }
  ∧ Approvals.deny st approvalId note userId now =
      { commits := [], enqueued := [], outcome := .httpError 409 "not pending" } := by
  constructor <;> simp [Approvals.approve, Approvals.deny, hfind, hst]

/-- Witness for C8 at a concrete input: a second decision on an already
approved request conflicts and commits nothing. -/
theorem C8_double_decision_conflict_witness :
    Approvals.approve c8Store "a8" "again" "admin" "T3" =
      { commits := [], enqueued := [], outcome := .httpError 409 "not pending" }
  ∧ Approvals.deny c8Store "a8" "again" "admin" "T3" =
      { commits := [], enqueued := [], outcome := .httpError 409 "not pending" } :=
  C8_double_decision_conflict c8Store "a8" "again" "admin" "T3"
    { id := "a8", status := "approved", resourceType := "run", resourceId := "r8",
      payloadToolId := some "t8", payloadArgs := [], createdAt := 3 }
    (by decide) (by decide)

/-- C9: when the `jsonschema` library cannot be imported, `_validate_schema`
returns success (`(True, "")`) for every argument map and every schema, and
consequently `decide_execute` never returns `allowed = false` for a scoped
caller and an enabled tool: schema enforcement is silently disabled. -/
theorem C9_no_jsonschema_disables_validation (env : Policy.JsonEnv)
    (hna : env.jsonschemaAvailable = false) :
    (∀ (args : Args) (schema : Option String),
        Policy.validate_schema env args schema = (true, ""))
  ∧ ∀ (scopes : List String) (tool : Policy.ToolDict) (args : Args),
      scopes.contains "tool:execute" = true → tool.is_enabled.getD 1 = 1 →
      (Policy.decide_execute env scopes tool args).allowed = true := by
  have hv : ∀ (args : Args) (schema : Option String),
      Policy.validate_schema env args schema = (true, "") := by
    intro args schema
    cases schema with
    | none => rfl
    | some s => simp [Policy.validate_schema, hna]
  refine ⟨hv, ?_⟩
  intro scopes tool args hscope hen
  have hmem : "tool:execute" ∈ scopes := by simpa using hscope
  by_cases hcon : (Policy.riskLevelOfString (tool.risk_level.getD "exec_low")).getD
      Policy.RiskLevel.exec_low ∈ Policy.APPROVAL_REQUIRED_RISKS
  · simp [Policy.decide_execute, hmem, hen, hcon]
  · simp [Policy.decide_execute, hmem, hen, hcon, hv]

/-- Witness for C9 at a concrete input: with the import failing, an
invalid-by-schema argument map still validates and a `read`-risk tool is
allowed. -/
theorem C9_no_jsonschema_disables_validation_witness :
    Policy.validate_schema noJsEnv [("x", "1")] (some "schema-required-y") =
      (true, "")
  ∧ (Policy.decide_execute noJsEnv ["tool:execute"]
      { is_enabled := some 1, risk_level := some "read",
        args_schema_json := some "schema-required-y" } [("x", "1")]).allowed =
      true :=
  ⟨(C9_no_jsonschema_disables_validation noJsEnv rfl).1 [("x", "1")]
      (some "schema-required-y"),
   (C9_no_jsonschema_disables_validation noJsEnv rfl).2 ["tool:execute"]
      { is_enabled := some 1, risk_level := some "read",
        args_schema_json := some "schema-required-y" } [("x", "1")]
      (by decide) rfl⟩

/-- C10: for every non-empty list of recorded step statuses in which every
step is `skipped`, the aggregate status is `partial` (outside the spec's
four-way classification), and with zero recorded results it is `failed`. -/
theorem C10_all_skipped_and_empty (results : List Agent.StepStatus)
    (hne : results ≠ [])
    (hsk : ∀ s ∈ results, s = Agent.StepStatus.skipped) :
    Agent.get_overall_status results = "partial"
  ∧ Agent.get_overall_status [] = "failed" := by
  have h0 : results.isEmpty = false := by
    cases results with
    | nil => exact absurd rfl hne
    | cons a l => rfl
  obtain ⟨x, hx⟩ : ∃ x, x ∈ results := by
    cases results with
    | nil => exact absurd rfl hne
    | cons a l => exact ⟨a, List.mem_cons_self a l⟩
  have hxs := hsk x hx
  have hall : (results.all fun s => decide (s = Agent.StepStatus.completed)) =
      false := by
    simp only [List.all_eq_false, decide_eq_true_eq]
    exact ⟨x, hx, by rw [hxs]; decide⟩
  have hanyf : (results.any fun s => decide (s = Agent.StepStatus.failed)) =
      false := by
    simp only [List.any_eq_false, decide_eq_true_eq]
    intro y hy
    rw [hsk y hy]
    decide
  have hanyb : (results.any fun s => decide (s = Agent.StepStatus.blocked)) =
      false := by
    simp only [List.any_eq_false, decide_eq_true_eq]
    intro y hy
    rw [hsk y hy]
    decide
  exact ⟨by simp [Agent.get_overall_status, h0, hall, hanyf, hanyb], rfl⟩

/-- Witness for C10 at a concrete input: an all-`skipped` result list
aggregates to `partial`, and the empty list to `failed`. -/
theorem C10_all_skipped_and_empty_witness :
    Agent.get_overall_status [.skipped, .skipped] = "partial"
  ∧ Agent.get_overall_status [] = "failed" :=
  C10_all_skipped_and_empty [.skipped, .skipped] (by decide) (by simp)

end Siyiji
